import Mathlib

/-!
# Verification of `chained_viper` (Optional / Result / LazyIterator)

Shallow embedding of `src/chained_viper/{option,result,iterator,utils}.py`.

Python's dynamic values are modelled by the inductive `PyVal`.  Exception
instances are values too (`Result.__init__` duck-types on them); the code only
ever observes an exception's class (`type(e)` / `err_type`) and its first
argument (`e.args[0]`), so an exception value is embedded as its kind together
with either no argument (`exc0`, the empty `args` tuple) or its first argument
(`exc1`).  A Python call that may raise is embedded as a function into
`Except (ExcKind × Option PyVal) PyVal`: either a normal return, or the kind
and first argument of the raised exception.  Methods that can themselves raise
return `Except ExcKind _`.
-/

/-- Runtime classes of Python exceptions, as compared by `type(e)` /
`self.err_type`.  The spec's `EmptyUnwrap` is realised by the code as
`ValueError` (raised by `Option.unwrap`), `IndexError` is what reading
`args[0]` of an argument-less exception raises, and `TypeError` is what
calling a non-callable raises.  `userExc n` covers the unboundedly many
user-defined exception classes. -/
inductive ExcKind where
  | exception
  | valueError
  | typeError
  | indexError
  | userExc (n : Nat)
deriving DecidableEq, Repr

/-- The universe of Python values the library manipulates: `None`, booleans,
integers, strings, and exception instances (kind plus empty args or a first
argument — all the code ever reads of an exception instance). -/
inductive PyVal where
  | pynone
  | pybool (b : Bool)
  | int (n : Int)
  | str (s : String)
  | exc0 (k : ExcKind)
  | exc1 (k : ExcKind) (arg : PyVal)
deriving DecidableEq, Repr

/-- Predicate for `isinstance(value, Exception)` on an embedded value. -/
def PyVal.isExc : PyVal → Bool
  | .exc0 _ => true
  | .exc1 _ _ => true
  | _ => false

/-- A Python unary callable: given the argument, it either returns a value or
raises an exception of some kind with (optionally) a first argument. -/
abbrev PyFun := PyVal → Except (ExcKind × Option PyVal) PyVal

/-- A Python zero-argument callable (the closures fed to `Result.into`). -/
abbrev PyThunk := Except (ExcKind × Option PyVal) PyVal

/-- Build the exception instance a raise site produced: kind `k`, first
argument `a` if any. -/
def PyVal.excOf (k : ExcKind) (a : Option PyVal) : PyVal :=
  match a with
  | none => .exc0 k
  | some x => .exc1 k x

/-- The state of a `Result` from `result.py`: the `value` slot and the
`err_type` tag (`none` on success, the originating exception class on
failure). -/
structure Result where
  value : PyVal
  err_type : Option ExcKind
deriving DecidableEq, Repr

/-- Python `Result.__init__`: duck-types its argument.  An exception instance turns
into a failure whose payload is `value.args[0]` — reading `args[0]` of an
argument-less exception raises `IndexError`, which propagates out of the
constructor.  Any other value turns into a success. -/
def Result.init (value : PyVal) : Except ExcKind Result :=
  match value with
  | .exc0 _ => .error .indexError
  | .exc1 k a => .ok ⟨a, some k⟩
  | v => .ok ⟨v, none⟩

/-- Python `Result.is_ok`: `not bool(self.err_type)` — `err_type` is `None` exactly
on a success (a class object is always truthy). -/
def Result.is_ok (r : Result) : Bool := r.err_type.isNone

/-- Python `Result.into(f)`: call `f()`, catching a raised exception into the value;
the `finally` block then returns `Result(val)` (so an argument-less raised
exception makes the constructor itself raise `IndexError`). -/
def Result.into (f : PyThunk) : Except ExcKind Result :=
  match f with
  | .ok v => Result.init v
  | .error (k, a) => Result.init (PyVal.excOf k a)

/-- Python `Result.map(key)`: on a failure, return `Result(self.err_type(self.value))`
— a fresh failure rebuilt from the same kind and payload.  On a success,
attempt `key(self.value)`; if it raises `e`, the value becomes
`type(e)(self.value)` — an exception of the raised kind whose first argument
is the original input value — and either way the `finally` block returns
`Result(val)`. -/
def Result.map (r : Result) (key : PyFun) : Except ExcKind Result :=
  match r.err_type with
  | some k => Result.init (.exc1 k r.value)
  | none =>
    match key r.value with
    | .ok v => Result.init v
    | .error (k, _) => Result.init (.exc1 k r.value)

/-- Python `Result.and_then(f)`: a failure is returned itself, unchanged; on a
success, attempt `f(self.value)` with the same re-tag-on-raise policy as
`map`. -/
def Result.and_then (r : Result) (f : PyFun) : Except ExcKind Result :=
  match r.err_type with
  | some _ => .ok r
  | none =>
    match f r.value with
    | .ok v => Result.init v
    | .error (k, _) => Result.init (.exc1 k r.value)

/-- The state of an `Option` from `option.py` (named `Opt` here because Lean
reserves `Option`): a single `value` slot; `None` in the slot marks absence.
Python's `__eq__` compares the `value` slots, which coincides with structural
equality of `Opt`. -/
structure Opt where
  value : PyVal
deriving DecidableEq, Repr

/-- Python `Option.is_some`: `self.value is not None`. -/
def Opt.is_some (o : Opt) : Bool := o.value != PyVal.pynone

/-- Python `Option.is_none`: `self.value is None`. -/
def Opt.is_none (o : Opt) : Bool := o.value == PyVal.pynone

/-- Python `Option.unwrap`: raise `ValueError("Bare 'None' not allowed")` — the
spec's `EmptyUnwrap` — when absent, otherwise return the contained value. -/
def Opt.unwrap (o : Opt) : Except ExcKind PyVal :=
  if o.is_some then .ok o.value else .error .valueError

/-- Python `Option.map(f)`: `Option(f(self.value)) if self.is_some() else self`.
Embedded for `f` that returns normally (`map` installs no exception
handler, so both sides of any `map` equation raise identically when `f`
raises). -/
def Opt.map (o : Opt) (f : PyVal → PyVal) : Opt :=
  if o.is_some then ⟨f o.value⟩ else o

/-- Function composition `compose(g, f)(x) = g(f(x))`, as used in the spec's
functor law. -/
def compose (g f : PyVal → PyVal) : PyVal → PyVal := fun x => g (f x)

/-- Python `Option.ok_or(e)`: `Result(self.value if self.is_some() else e)` — the
lift goes through the duck-typed `Result` constructor, which classifies
exception instances as failures and may itself raise. -/
def Opt.ok_or (o : Opt) (e : PyVal) : Except ExcKind Result :=
  Result.init (if o.is_some then o.value else e)

/-- Python `Result.ok()`: `Option(self.value) if self.is_ok() else Option(None)`. -/
def Result.ok (r : Result) : Opt :=
  if r.is_ok then ⟨r.value⟩ else ⟨.pynone⟩

/-- The pull source of an `Iter` from `iterator.py`, as reachable through
construction from a list-backed iterable and `peek`.  `plain l` is an
ordinary underlying iterator whose remaining raw elements are `l`.
`peekGen v yielded` is the state after `peek` assigned
`self.iter_ = plain_iterator(val, self)`: a generator closing over the
iterator object itself, with `yielded` recording whether it has already
yielded the peeked value `v`. -/
inductive IterSrc where
  | plain (remaining : List PyVal)
  | peekGen (v : PyVal) (yielded : Bool)
deriving DecidableEq, Repr

/-- Python `Iter.next()` on a plain list-backed source:
`Option(next(self.iter_, None))` — the head element (or `None` at
exhaustion) wrapped in an Option, plus the advanced source. -/
def Iter.nextL : List PyVal → Opt × List PyVal
  | [] => (⟨.pynone⟩, [])
  | v :: rest => (⟨v⟩, rest)

/-- Python `Iter.next()` on any reachable source.  On `plain` it never raises.  On
the peek-rebuilt generator: the first pull runs `yield val.unwrap()`; the
second pull resumes into `yield from (item.value for item in self)`, where
iterating `self` calls `next(self.iter_)` — and `self.iter_` *is* the
currently executing generator, so Python raises
`ValueError("generator already executing")`; the generator terminates with
that exception (so it behaves as exhausted afterwards) and the `ValueError`
propagates out of `next()` (the `next(..., None)` default only absorbs
`StopIteration`). -/
def Iter.next : IterSrc → Except ExcKind Opt × IterSrc
  | .plain l => (.ok (Iter.nextL l).1, .plain (Iter.nextL l).2)
  | .peekGen v false => (.ok ⟨v⟩, .peekGen v true)
  | .peekGen _ true => (.error .valueError, .plain [])

/-- Python `Iter.peek()`: `val = self.next()`; if `val.is_some()`, set
`self.iter_ = plain_iterator(val, self)`; return `val`. -/
def Iter.peek (s : IterSrc) : Except ExcKind Opt × IterSrc :=
  match Iter.next s with
  | (.ok val, s') =>
    if val.is_some then (.ok val, .peekGen val.value false) else (.ok val, s')
  | (.error k, s') => (.error k, s')

/-- Core of `consume(iterable, n)` from `utils.py` for a non-negative count:
`next(islice(it, n, n), None)` advances the underlying iterator past
`min n (length)` elements. -/
def consumeNat : List PyVal → Nat → List PyVal
  | src, 0 => src
  | [], _ + 1 => []
  | _ :: rest, n + 1 => consumeNat rest n

/-- Python `consume(iterable, n)` with a Python integer `n`: a negative index makes
`islice` raise `ValueError`; otherwise advance past `min n (length)`
elements. -/
def consume (src : List PyVal) : Int → Except ExcKind (List PyVal)
  | .ofNat n => .ok (consumeNat src n)
  | .negSucc _ => .error .valueError

/-- Python `Iter.nth(n)`: `consume(self, n - 1); return self.next()`, on a plain
list-backed iterator; produces the returned Option and the remaining
state. -/
def Iter.nth (src : List PyVal) (n : Int) : Except ExcKind (Opt × List PyVal) :=
  match consume src (n - 1) with
  | .error k => .error k
  | .ok rest => .ok (Iter.nextL rest)

/-- Python `Iter.skip_while(f)`: loop `item = self.next()`; continue while `item`
is present and satisfies `f`, otherwise break — the element that stopped
the loop has already been consumed.  The method mutates `self` in place and
returns the same instance, whose remaining state this function computes. -/
def Iter.skip_while (f : PyVal → Bool) : List PyVal → List PyVal
  | [] => []
  | v :: rest =>
    if (v != PyVal.pynone) && f v then Iter.skip_while f rest else rest

/-- The raw-value stream of `Iter.collect`:
`(item.unwrap() for item in self)` — each yielded Option is unwrapped in
pull order, and the first absent element makes `unwrap` raise out of the
generator. -/
def Iter.collectVals : List PyVal → Except ExcKind (List PyVal)
  | [] => .ok []
  | v :: rest =>
    match Opt.unwrap ⟨v⟩ with
    | .error k => .error k
    | .ok x =>
      match Iter.collectVals rest with
      | .error k => .error k
      | .ok xs => .ok (x :: xs)

/-- Python `Iter.collect(type_)`: `type_(item.unwrap() for item in self)` for a
builder that consumes its stream fully (as `list`, `set`, `tuple` do). -/
def Iter.collect {β : Type} (src : List PyVal) (builder : List PyVal → β) :
    Except ExcKind β :=
  match Iter.collectVals src with
  | .error k => .error k
  | .ok xs => .ok (builder xs)

set_option linter.unusedVariables false in
/-- Python `Iter.fold(initial_value, f)`:
`reduce(initial_value, (f(item.unwrap()) for item in self))` —
`functools.reduce` receives `initial_value` in its *function* slot and the
mapped generator as the iterable, with no seed.  Embedded for a data
(non-callable) `initial_value`, which the annotation `initial_value : T`
prescribes, and a normally-returning `f`: reduce pulls the first mapped
element, returns it alone if the stream ends, and otherwise calls
`initial_value(acc, x)` — raising `TypeError` because a data value is not
callable; an absent element raises `ValueError` at its `unwrap` before any
later call. -/
def Iter.fold (initial_value : PyVal) (f : PyVal → PyVal) :
    List PyVal → Except ExcKind PyVal
  | [] => .error .typeError
  | [v] => if v = PyVal.pynone then .error .valueError else .ok (f v)
  | v1 :: v2 :: _ =>
    if v1 = PyVal.pynone then .error .valueError
    else if v2 = PyVal.pynone then .error .valueError
    else .error .typeError

/-- The element list of Python `range(a, b)`. -/
def pyRange (a b : Nat) : List PyVal :=
  (List.range (b - a)).map (fun i => PyVal.int (a + i))

/-- C1: success + raising `f` re-tags with the raised kind and keeps the
original input as payload; failure is passed through with kind and payload
intact, for any `f`. -/
theorem c1_result_retag_policy (r : Result) (f : PyFun) :
    (∀ k a, r.is_ok = true → f r.value = .error (k, a) →
      Result.map r f = .ok ⟨r.value, some k⟩ ∧
      Result.and_then r f = .ok ⟨r.value, some k⟩) ∧
    (∀ k, r.err_type = some k →
      Result.map r f = .ok ⟨r.value, some k⟩ ∧
      Result.and_then r f = .ok r) := by
  obtain ⟨v, e⟩ := r
  cases e with
  | none =>
    refine ⟨fun k a _ hf => ⟨?_, ?_⟩, fun k herr => by cases herr⟩
    · simp [Result.map, hf, Result.init]
    · simp [Result.and_then, hf, Result.init]
  | some k0 =>
    refine ⟨fun k a hok _ => ?_, fun k herr => ?_⟩
    · exact absurd hok (by simp [Result.is_ok])
    · obtain rfl : _ = k := by injection herr
      exact ⟨rfl, rfl⟩

/-- C1 witness: concrete success `Result(5)`, concrete `f` raising
`TypeError(99)`; the result is a `TypeError`-kinded failure with payload `5`
(not `99`), and a concrete failure maps to itself. -/
theorem c1_result_retag_policy_witness :
    Result.map ⟨.int 5, none⟩ (fun _ => .error (.typeError, some (.int 99))) =
      .ok ⟨.int 5, some .typeError⟩ ∧
    Result.and_then ⟨.int 5, none⟩ (fun _ => .error (.typeError, some (.int 99))) =
      .ok ⟨.int 5, some .typeError⟩ ∧
    Result.map ⟨.int 7, some .valueError⟩ (fun _ => .error (.typeError, some (.int 99))) =
      .ok ⟨.int 7, some .valueError⟩ := by
  refine ⟨?_, ?_, ?_⟩
  · exact ((c1_result_retag_policy ⟨.int 5, none⟩ _).1 .typeError (some (.int 99))
      rfl rfl).1
  · exact ((c1_result_retag_policy ⟨.int 5, none⟩ _).1 .typeError (some (.int 99))
      rfl rfl).2
  · exact ((c1_result_retag_policy ⟨.int 7, some .valueError⟩ _).2 .valueError rfl).1

/-- C9: constructing a `Result` from an exception instance whose `args` tuple
is empty raises `IndexError` (reading `args[0]`), instead of producing a
failure `Result`; hence `Result.into(f)` does the same when `f` raises an
argument-less exception. -/
theorem c9_argless_exception_indexerror (k : ExcKind) :
    Result.init (.exc0 k) = .error .indexError ∧
    Result.into (.error (k, none)) = .error .indexError := by
  exact ⟨rfl, rfl⟩

theorem consumeNat_eq_drop : ∀ (src : List PyVal) (n : Nat),
    consumeNat src n = src.drop n := by
  intro src
  induction src with
  | nil => intro n; cases n <;> rfl
  | cons v rest ih =>
    intro n
    cases n with
    | zero => rfl
    | succ m => simpa [consumeNat] using ih m

theorem collectVals_of_not_mem : ∀ (src : List PyVal), PyVal.pynone ∉ src →
    Iter.collectVals src = .ok src := by
  intro src
  induction src with
  | nil => intro _; rfl
  | cons v rest ih =>
    intro h
    have hv : v ≠ PyVal.pynone := fun hv => h (hv ▸ List.mem_cons_self v rest)
    have hr := ih (fun hm => h (List.mem_cons_of_mem _ hm))
    simp [Iter.collectVals, Opt.unwrap, Opt.is_some, hv, hr]

theorem collectVals_of_mem : ∀ (src : List PyVal), PyVal.pynone ∈ src →
    Iter.collectVals src = .error .valueError := by
  intro src
  induction src with
  | nil => intro h; cases h
  | cons v rest ih =>
    intro h
    by_cases hv : v = PyVal.pynone
    · subst hv; simp [Iter.collectVals, Opt.unwrap, Opt.is_some]
    · have hm : PyVal.pynone ∈ rest := by
        cases h with
        | head => exact absurd rfl hv
        | tail _ hm => exact hm
      simp [Iter.collectVals, Opt.unwrap, Opt.is_some, hv, ih hm]

/-- C2: unwrapping an absent Optional fails with the EmptyUnwrap error
(realised as `ValueError`); unwrapping a present `Optional(v)` returns `v`;
`collect` fails with the same error whenever an absent element is yielded,
and over a source with no absent element it builds the target container from
the raw values in pull order. -/
theorem c2_unwrap_collect_emptyunwrap :
    (∀ o : Opt, o.is_some = false → o.unwrap = .error .valueError) ∧
    (∀ v : PyVal, v ≠ PyVal.pynone → (Opt.mk v).unwrap = .ok v) ∧
    (∀ (β : Type) (src : List PyVal) (builder : List PyVal → β),
      PyVal.pynone ∈ src → Iter.collect src builder = .error .valueError) ∧
    (∀ (β : Type) (src : List PyVal) (builder : List PyVal → β),
      PyVal.pynone ∉ src → Iter.collect src builder = .ok (builder src)) := by
  refine ⟨?_, ?_, ?_, ?_⟩
  · intro o ho; simp [Opt.unwrap, ho]
  · intro v hv; simp [Opt.unwrap, Opt.is_some, hv]
  · intro β src builder h
    simp [Iter.collect, collectVals_of_mem src h]
  · intro β src builder h
    simp [Iter.collect, collectVals_of_not_mem src h]

/-- C2 witness: concrete evaluations of the four parts. -/
theorem c2_unwrap_collect_emptyunwrap_witness :
    (Opt.mk PyVal.pynone).unwrap = .error .valueError ∧
    (Opt.mk (PyVal.int 5)).unwrap = .ok (PyVal.int 5) ∧
    Iter.collect [PyVal.int 1, PyVal.pynone] (fun xs => xs) = .error .valueError ∧
    Iter.collect [PyVal.int 1, PyVal.int 2] (fun xs => xs) =
      .ok [PyVal.int 1, PyVal.int 2] := by
  refine ⟨c2_unwrap_collect_emptyunwrap.1 _ rfl,
    c2_unwrap_collect_emptyunwrap.2.1 _ (by decide),
    c2_unwrap_collect_emptyunwrap.2.2.1 _ _ _ (by decide),
    c2_unwrap_collect_emptyunwrap.2.2.2 _ _ _ (by decide)⟩

/-- C3 (code bug): after `peek()` rebuilds the pull source, the first
`next()` returns the peeked element again, but the second `next()` raises
`ValueError` ("generator already executing"): the rebuilt generator is
`self.iter_` and pulls from `self`, so it re-enters itself.  A reachable
state therefore makes `next()` raise, and the un-peeked remainder of the
source is lost. -/
theorem c3_next_raises_after_peek :
    Iter.peek (.plain [PyVal.int 0, PyVal.int 1, PyVal.int 2]) =
      (.ok (Opt.mk (PyVal.int 0)), .peekGen (PyVal.int 0) false) ∧
    Iter.next (.peekGen (PyVal.int 0) false) =
      (.ok (Opt.mk (PyVal.int 0)), .peekGen (PyVal.int 0) true) ∧
    (Iter.next (.peekGen (PyVal.int 0) true)).1 = .error .valueError :=
  ⟨rfl, rfl, rfl⟩

/-- C4 counterexample: with `f` constantly `None` and `g` constantly `2`,
`Optional(1).map(f).map(g)` is the absent Optional while
`Optional(1).map(compose(g, f))` is `Optional(2)` — the functor composition
law fails when the intermediate value is the `None` sentinel. -/
theorem c4_functor_law_cex :
    ((Opt.mk (.int 1)).map (fun _ => PyVal.pynone)).map (fun _ => PyVal.int 2) ≠
      (Opt.mk (.int 1)).map (compose (fun _ => PyVal.int 2) (fun _ => PyVal.pynone)) := by
  decide

/-- C4 amended: for present `v`, the functor composition law
`Optional(v).map(f).map(g) == Optional(v).map(compose(g, f))` holds whenever
the intermediate value `f(v)` is not the `None` sentinel; an absent Optional
propagates unchanged through any chain of `map` calls. -/
theorem c4_functor_law_amended (v : PyVal) (f g : PyVal → PyVal) :
    (v ≠ PyVal.pynone → f v ≠ PyVal.pynone →
      ((Opt.mk v).map f).map g = (Opt.mk v).map (compose g f)) ∧
    (∀ (o : Opt) (fs : List (PyVal → PyVal)), o.is_some = false →
      fs.foldl Opt.map o = o) := by
  constructor
  · intro hv hfv
    simp [Opt.map, Opt.is_some, hv, hfv, compose]
  · intro o fs ho
    induction fs with
    | nil => rfl
    | cons f1 fs ih =>
      have h1 : Opt.map o f1 = o := by simp [Opt.map, ho]
      simpa [h1] using ih

/-- C4 witness: the amended law at `v = 1`, `f = id`, `g = const 7`, and the
absent chain at a singleton list of maps. -/
theorem c4_functor_law_amended_witness :
    ((Opt.mk (.int 1)).map (fun x => x)).map (fun _ => PyVal.int 7) =
      (Opt.mk (.int 1)).map (compose (fun _ => PyVal.int 7) (fun x => x)) ∧
    [fun _ => PyVal.int 5].foldl Opt.map (Opt.mk PyVal.pynone) =
      Opt.mk PyVal.pynone := by
  refine ⟨(c4_functor_law_amended (.int 1) (fun x => x) (fun _ => PyVal.int 7)).1
      (by decide) (by decide), ?_⟩
  exact (c4_functor_law_amended (.int 0) (fun x => x) (fun x => x)).2
    (Opt.mk PyVal.pynone) [fun _ => PyVal.int 5] rfl

/-- C5 counterexample: the round trip fails when the present value is itself
an exception instance — `Optional(Exception(1)).ok_or(Exception(0))` is a
*failure* Result (the duck-typed constructor classifies the payload), so
`.ok()` is absent rather than `Optional(Exception(1))`; and with an
argument-less error `Optional(None).ok_or(Exception())` raises `IndexError`
instead of producing any Result at all. -/
theorem c5_ok_or_roundtrip_cex :
    Except.map Result.ok
        ((Opt.mk (PyVal.exc1 .exception (.int 1))).ok_or (PyVal.exc1 .exception (.int 0))) ≠
      .ok (Opt.mk (PyVal.exc1 .exception (.int 1))) ∧
    (Opt.mk PyVal.pynone).ok_or (PyVal.exc0 .exception) = .error .indexError := by
  constructor
  · intro h
    simp [Opt.ok_or, Opt.is_some, Result.init, Except.map, Result.ok, Result.is_ok] at h
  · rfl

/-- C5 amended: for every present value `v` that is not an exception
instance, and every error given as an exception instance with a first
argument, `Optional(v).ok_or(e).ok() == Optional(v)`, and
`Optional(None).ok_or(e).ok()` is absent. -/
theorem c5_ok_or_roundtrip_amended (v a : PyVal) (k : ExcKind) :
    (v ≠ PyVal.pynone → v.isExc = false →
      Except.map Result.ok ((Opt.mk v).ok_or (PyVal.exc1 k a)) = .ok (Opt.mk v)) ∧
    Except.map Result.ok ((Opt.mk PyVal.pynone).ok_or (PyVal.exc1 k a)) =
      .ok (Opt.mk PyVal.pynone) := by
  constructor
  · intro hv hexc
    cases v <;>
      simp_all [Opt.ok_or, Opt.is_some, Result.init, Except.map, Result.ok,
        Result.is_ok, PyVal.isExc]
  · simp [Opt.ok_or, Opt.is_some, Result.init, Except.map, Result.ok, Result.is_ok]

/-- C5 witness: the amended round trip at `v = 5` and `e = Exception(0)`. -/
theorem c5_ok_or_roundtrip_amended_witness :
    Except.map Result.ok ((Opt.mk (PyVal.int 5)).ok_or (PyVal.exc1 .exception (.int 0))) =
      .ok (Opt.mk (PyVal.int 5)) ∧
    Except.map Result.ok ((Opt.mk PyVal.pynone).ok_or (PyVal.exc1 .exception (.int 0))) =
      .ok (Opt.mk PyVal.pynone) :=
  ⟨(c5_ok_or_roundtrip_amended (.int 5) (.int 0) .exception).1 (by decide) (by decide),
    (c5_ok_or_roundtrip_amended (.int 5) (.int 0) .exception).2⟩

/-- C6 counterexample: on `[1, 1, 2, 3]` with the predicate "equals 1",
`skip_while` consumes `1, 1` *and* the first failing element `2`; the next
element the iterator yields afterwards is `3`, not the first element failing
the predicate. -/
theorem c6_skip_while_cex :
    Iter.skip_while (fun v => v == PyVal.int 1)
        [PyVal.int 1, PyVal.int 1, PyVal.int 2, PyVal.int 3] = [PyVal.int 3] ∧
    (Iter.nextL [PyVal.int 3]).1 ≠ Opt.mk (PyVal.int 2) := by
  decide

/-- C6 amended: `skip_while(pred)` is eager — at call time it pulls and
discards the leading elements satisfying `pred` *and additionally the first
element failing `pred`* (or drains the source when every element satisfies
it), so the element *after* the first failing one is the next element
yielded; it returns the same, already advanced iterator instance. -/
theorem c6_skip_while_amended (p : PyVal → Bool) (pre post : List PyVal) (v : PyVal)
    (hpre : ∀ x ∈ pre, ((x != PyVal.pynone) && p x) = true) :
    (((v != PyVal.pynone) && p v) = false →
      Iter.skip_while p (pre ++ v :: post) = post) ∧
    Iter.skip_while p pre = [] := by
  induction pre with
  | nil =>
    refine ⟨fun hv => ?_, rfl⟩
    simp [Iter.skip_while, hv]
  | cons x rest ih =>
    have hx := hpre x (List.mem_cons_self x rest)
    have hrest : ∀ y ∈ rest, ((y != PyVal.pynone) && p y) = true :=
      fun y hy => hpre y (List.mem_cons_of_mem _ hy)
    refine ⟨fun hv => ?_, ?_⟩
    · simpa [Iter.skip_while, hx] using (ih hrest).1 hv
    · simpa [Iter.skip_while, hx] using (ih hrest).2

/-- C6 witness: the amended statement on `[1, 2, 3]` (leading match `1`,
consumed failing element `2`, remainder `[3]`) and on an all-matching
source. -/
theorem c6_skip_while_amended_witness :
    Iter.skip_while (fun v => v == PyVal.int 1)
        [PyVal.int 1, PyVal.int 2, PyVal.int 3] = [PyVal.int 3] ∧
    Iter.skip_while (fun v => v == PyVal.int 1)
        [PyVal.int 1, PyVal.int 1] = [] := by
  refine ⟨(c6_skip_while_amended (fun v => v == PyVal.int 1)
      [PyVal.int 1] [PyVal.int 3] (PyVal.int 2) (by decide)).1 (by decide), ?_⟩
  exact (c6_skip_while_amended (fun v => v == PyVal.int 1)
      [PyVal.int 1, PyVal.int 1] [] PyVal.pynone (by decide)).2

/-- C7 (code bug): `fold(0, f)` over `[1, 2, 3]` raises `TypeError` instead
of accumulating — `functools.reduce` receives the data value `0` in its
function slot and calls it on the first two mapped elements. -/
theorem c7_fold_raises_typeerror :
    Iter.fold (PyVal.int 0) (fun v => v) [PyVal.int 1, PyVal.int 2, PyVal.int 3] =
      .error .typeError ∧
    ∀ w : PyVal,
      Iter.fold (PyVal.int 0) (fun v => v) [PyVal.int 1, PyVal.int 2, PyVal.int 3] ≠
        .ok w := by
  refine ⟨rfl, fun w h => ?_⟩
  rw [show Iter.fold (PyVal.int 0) (fun v => v)
      [PyVal.int 1, PyVal.int 2, PyVal.int 3] = .error .typeError from rfl] at h
  cases h

theorem consume_coe (src : List PyVal) (m : Nat) :
    consume src (m : Int) = .ok (consumeNat src m) := rfl

theorem nextL_drop : ∀ (src : List PyVal) (k : Nat), k < src.length →
    Iter.nextL (src.drop k) = (Opt.mk (src.getD k PyVal.pynone), src.drop (k + 1)) := by
  intro src
  induction src with
  | nil => intro k hk; simp at hk
  | cons v rest ih =>
    intro k hk
    cases k with
    | zero => rfl
    | succ m =>
      have hm : m < rest.length := by simpa using hk
      simpa [List.drop_succ_cons, List.getD_cons_succ] using ih m hm

/-- C8: for positive `n`, `nth(n)` advances `n - 1` elements and returns the
`n`-th element as `next()` would — `Optional(src[n-1])` with the source
advanced past `n` elements when `n` is within bounds, an absent Optional at
exhaustion — and `Iter(range(0, 10)).nth(4) == Optional(3)`. -/
theorem c8_nth_skips_then_yields (src : List PyVal) (n : Int) (hn : 0 < n) :
    (n.toNat ≤ src.length →
      Iter.nth src n =
        .ok (Opt.mk (src.getD (n.toNat - 1) PyVal.pynone), src.drop n.toNat)) ∧
    (src.length < n.toNat →
      Iter.nth src n = .ok (Opt.mk PyVal.pynone, [])) ∧
    Iter.nth (pyRange 0 10) 4 = .ok (Opt.mk (.int 3), pyRange 4 10) := by
  have h1 : n - 1 = ((n.toNat - 1 : Nat) : Int) := by omega
  have hstep : Iter.nth src n = .ok (Iter.nextL (src.drop (n.toNat - 1))) := by
    unfold Iter.nth
    rw [h1, consume_coe, consumeNat_eq_drop]
  refine ⟨?_, ?_, rfl⟩
  · intro hlen
    have hk : n.toNat - 1 < src.length := by omega
    rw [hstep, nextL_drop src (n.toNat - 1) hk,
      show n.toNat - 1 + 1 = n.toNat by omega]
  · intro hlen
    rw [hstep, List.drop_eq_nil_of_le (by omega)]
    rfl

/-- C8 witness: `nth(4)` over `range(0, 10)` yields `Optional(3)`, and `nth`
past exhaustion yields an absent Optional. -/
theorem c8_nth_skips_then_yields_witness :
    Iter.nth (pyRange 0 10) 4 = .ok (Opt.mk (.int 3), pyRange 4 10) ∧
    Iter.nth [PyVal.int 0] 5 = .ok (Opt.mk PyVal.pynone, []) := by
  refine ⟨(c8_nth_skips_then_yields (pyRange 0 10) 4 (by decide)).2.2, ?_⟩
  exact (c8_nth_skips_then_yields [PyVal.int 0] 5 (by decide)).2.1 (by decide)

/-- C10: when the source yields `None` as an ordinary element, `next()`
returns an absent Optional even though the source is not exhausted, and the
following `next()` yields the next element — so an absent result does not
imply exhaustion. -/
theorem c10_absent_not_exhaustion (rest : List PyVal) :
    (Iter.nextL (PyVal.pynone :: rest)).1.is_some = false ∧
    (Iter.nextL (PyVal.pynone :: rest)).2 = rest ∧
    (∀ w rest2, rest = w :: rest2 → Iter.nextL rest = (Opt.mk w, rest2)) := by
  refine ⟨rfl, rfl, fun w rest2 h => by subst h; rfl⟩

/-- C10 witness: source `[None, 7]` — the first pull is absent, the second
yields `7`. -/
theorem c10_absent_not_exhaustion_witness :
    (Iter.nextL [PyVal.pynone, PyVal.int 7]).1.is_some = false ∧
    Iter.nextL [PyVal.int 7] = (Opt.mk (PyVal.int 7), []) :=
  ⟨(c10_absent_not_exhaustion [PyVal.int 7]).1,
    (c10_absent_not_exhaustion [PyVal.int 7]).2.2 (PyVal.int 7) [] rfl⟩
